import Mathlib

/-!
Verification of the tile-retrieval and mosaic-assembly engine of
`paintfile.py` (lidarpaint).

The Python source is shallowly embedded: pure numeric code is modelled over
`ℚ` (the Python floats carry exact decimal constants here), stateful code
(tile cache, switch rotation, the shared CRS list of the WMS layer lookup)
is modelled by explicit state passing, and fallible code returns
`Option`/`Except`.  External collaborators (the pyproj `Transformer`, PIL
image decoding, the HTTP session) are parameters of the embedded functions.
-/

namespace Paintfile

/-- Python `int()` applied to a rational: truncation toward zero
(`int(-1.5) == -1`), as used for `txstart`/`tystart` in
`TileHandler.compute_tile_parameters`. -/
def pyInt (q : ℚ) : ℤ := if 0 ≤ q then ⌊q⌋ else ⌈q⌉

/-- One entry of `matrixconfig['zooms']` as parsed by
`WmtsHandler.load_capabilities`. -/
structure ZoomConfig where
  x0 : ℚ
  y0 : ℚ
  scale_denominator : ℚ
  tile_size_x : ℤ
  tile_size_y : ℤ

/-- The state of a `WebMercatorTileCoords` instance after `__init__`:
grid origin, tile pixel sizes, meters per pixel and meters per tile. -/
structure WebMercatorTileCoords where
  x0 : ℚ
  y0 : ℚ
  tile_size_x : ℤ
  tile_size_y : ℤ
  mpp : ℚ
  tile_mx : ℚ
  tile_my : ℚ

/-- `WebMercatorTileCoords.__init__`: from a zoom configuration and the
optional forced meters-per-tile value `tile_mxy`.  The WMTS standard
constant `0.28` millimeter per pixel is the exact rational `28/100000`. -/
def WebMercatorTileCoords.ofZoomConfig (zc : ZoomConfig) (tile_mxy : Option ℚ) :
    WebMercatorTileCoords :=
  match tile_mxy with
  | none =>
      let mpp := (28 / 100000) * zc.scale_denominator
      { x0 := zc.x0, y0 := zc.y0, tile_size_x := zc.tile_size_x,
        tile_size_y := zc.tile_size_y, mpp := mpp,
        tile_mx := (zc.tile_size_x : ℚ) * mpp,
        tile_my := (zc.tile_size_y : ℚ) * mpp }
  | some m =>
      { x0 := zc.x0, y0 := zc.y0, tile_size_x := zc.tile_size_x,
        tile_size_y := zc.tile_size_y, mpp := m / (zc.tile_size_x : ℚ),
        tile_mx := m, tile_my := m }

/-- Result of `WebMercatorTileCoords.transform_to_tile`: the (fractional)
tile coordinates plus the reprojected coordinates. -/
structure TileResult where
  tx : ℚ
  ty : ℚ
  ax : ℚ
  ay : ℚ

/-- `WebMercatorTileCoords.transform_to_tile`.  The pyproj transformer is an
external collaborator, passed as the function `transformer`. -/
def transform_to_tile (tc : WebMercatorTileCoords) (transformer : ℚ → ℚ → ℚ × ℚ)
    (lat lon : ℚ) : TileResult :=
  let p := transformer lat lon
  let bx := p.1 - tc.x0
  let byy := tc.y0 - p.2
  { tx := bx / tc.tile_mx, ty := byy / tc.tile_my, ax := p.1, ay := p.2 }

/-- `WebMercatorTileCoords.tile_to_geo`: the inverse affine map.  It takes no
transformer argument: it never invokes the reference-system transform
primitive. -/
def tile_to_geo (tc : WebMercatorTileCoords) (tile_x tile_y : ℚ) : ℚ × ℚ :=
  let bx := tile_x * tc.tile_mx
  let byy := tile_y * tc.tile_my
  (bx + tc.x0, tc.y0 - byy)

/-- The identity reprojection (the case `target_ref = ortho_ref`). -/
def idTransform : ℚ → ℚ → ℚ × ℚ := fun a b => (a, b)

/-- The tuple returned by `TileHandler.compute_tile_parameters`. -/
structure TileParams where
  txstart : ℤ
  txend : ℤ
  tystart : ℤ
  tyend : ℤ
  size_x : ℤ
  size_y : ℤ
  tx1_orig : ℚ
  ty1_orig : ℚ
  tx2_orig : ℚ
  ty2_orig : ℚ

/-- `TileHandler.compute_tile_parameters`.  The four corners are listed in
the iteration order of the Python double loop.  `txlist.sort()` sorts
`(tx, tx_orig)` pairs lexicographically, so `txlist[0][0]` and
`txlist[-1][0]` are the min and max of the four tile coordinates; they are
written as `min`/`max` here.  `txstart = int(...)` truncates toward zero
(`pyInt`) while `txend = math.ceil(...)`. -/
def compute_tile_parameters (tc : WebMercatorTileCoords)
    (transformer : ℚ → ℚ → ℚ × ℚ) (lambx_km lamby_km : ℚ) : TileParams :=
  let c11 := transform_to_tile tc transformer (lambx_km * 1000) (lamby_km * 1000)
  let c12 := transform_to_tile tc transformer (lambx_km * 1000) ((lamby_km - 1) * 1000)
  let c21 := transform_to_tile tc transformer ((lambx_km + 1) * 1000) (lamby_km * 1000)
  let c22 := transform_to_tile tc transformer ((lambx_km + 1) * 1000) ((lamby_km - 1) * 1000)
  let txmin := min (min c11.tx c12.tx) (min c21.tx c22.tx)
  let txmax := max (max c11.tx c12.tx) (max c21.tx c22.tx)
  let tymin := min (min c11.ty c12.ty) (min c21.ty c22.ty)
  let tymax := max (max c11.ty c12.ty) (max c21.ty c22.ty)
  let txstart := pyInt txmin
  let tystart := pyInt tymin
  let txend := ⌈txmax⌉
  let tyend := ⌈tymax⌉
  let g1 := tile_to_geo tc (txstart : ℚ) (tystart : ℚ)
  let g2 := tile_to_geo tc (txend : ℚ) (tyend : ℚ)
  { txstart := txstart, txend := txend, tystart := tystart, tyend := tyend,
    size_x := (txend - txstart) * tc.tile_size_x,
    size_y := (tyend - tystart) * tc.tile_size_y,
    tx1_orig := g1.1, ty1_orig := g1.2, tx2_orig := g2.1, ty2_orig := g2.2 }

/-- The geometry computation as the spec words it: project the four corners
of `cell ± margin` (margin `m`, the same on all four sides) and continue as
`compute_tile_parameters` does.  This is the spec-side definition used to
compare the source (which takes no margin) with the spec. -/
def compute_tile_parameters_spec_margin (tc : WebMercatorTileCoords)
    (transformer : ℚ → ℚ → ℚ × ℚ) (lambx_km lamby_km m : ℚ) : TileParams :=
  let c11 := transform_to_tile tc transformer (lambx_km * 1000 - m) (lamby_km * 1000 + m)
  let c12 := transform_to_tile tc transformer (lambx_km * 1000 - m) ((lamby_km - 1) * 1000 - m)
  let c21 := transform_to_tile tc transformer ((lambx_km + 1) * 1000 + m) (lamby_km * 1000 + m)
  let c22 := transform_to_tile tc transformer ((lambx_km + 1) * 1000 + m) ((lamby_km - 1) * 1000 - m)
  let txmin := min (min c11.tx c12.tx) (min c21.tx c22.tx)
  let txmax := max (max c11.tx c12.tx) (max c21.tx c22.tx)
  let tymin := min (min c11.ty c12.ty) (min c21.ty c22.ty)
  let tymax := max (max c11.ty c12.ty) (max c21.ty c22.ty)
  let txstart := pyInt txmin
  let tystart := pyInt tymin
  let txend := ⌈txmax⌉
  let tyend := ⌈tymax⌉
  let g1 := tile_to_geo tc (txstart : ℚ) (tystart : ℚ)
  let g2 := tile_to_geo tc (txend : ℚ) (tyend : ℚ)
  { txstart := txstart, txend := txend, tystart := tystart, tyend := tyend,
    size_x := (txend - txstart) * tc.tile_size_x,
    size_y := (tyend - tystart) * tc.tile_size_y,
    tx1_orig := g1.1, ty1_orig := g1.2, tx2_orig := g2.1, ty2_orig := g2.2 }

/-- A concrete coordinate space used to evaluate the theorems: grid origin
`(0, 2000)`, 256×256-pixel tiles, 1000 meters per tile (this is
`WebMercatorTileCoords.ofZoomConfig` with `tile_mxy = some 1000`). -/
def tc0 : WebMercatorTileCoords :=
  WebMercatorTileCoords.ofZoomConfig
    { x0 := 0, y0 := 2000, scale_denominator := 1,
      tile_size_x := 256, tile_size_y := 256 } (some 1000)

/-- A PIL image value as the engine observes it: either `Image.new` with a
given size and solid fill color, or an image decoded by `Image.open` from
fetched bytes (the decoder itself is an external collaborator). -/
inductive PImage where
  | new (w h : ℤ) (color : ℤ × ℤ × ℤ)
  | decoded (data : List ℕ)
deriving DecidableEq

/-- The mosaic built by `TileHandler.fetch_image`: the `Image.new` canvas
(size and background fill) plus the sequence of `paste` calls, each an image
with its pixel offset. -/
structure MosaicModel where
  width : ℤ
  height : ℤ
  background : ℤ × ℤ × ℤ
  pastes : List (PImage × ℤ × ℤ)
deriving DecidableEq

/-- The list `[a, a+1, ..., a+n-1]`. -/
def myRange (a : ℤ) : ℕ → List ℤ
  | 0 => []
  | n + 1 => a :: myRange (a + 1) n

/-- Python `range(a, b)` over integers. -/
def pyRange (a b : ℤ) : List ℤ := myRange a (b - a).toNat

/-- Inner loop of `TileHandler.fetch_image`: `for x in range(txstart, txend)`,
pasting `fetch_tile(x, y)` at `(xpix, ypix)` and then `xpix += tile_size_x`. -/
def paste_row (fetch : ℤ → ℤ → PImage) (tsx y ypix : ℤ) :
    List ℤ → ℤ → List (PImage × ℤ × ℤ)
  | [], _ => []
  | x :: xs, xpix => (fetch x y, xpix, ypix) :: paste_row fetch tsx y ypix xs (xpix + tsx)

/-- Outer loop of `TileHandler.fetch_image`: `for y in range(tystart, tyend)`,
with `xpix = 0` at the start of each row and `ypix += tile_size_y` after it. -/
def paste_rows (fetch : ℤ → ℤ → PImage) (tsx tsy txstart txend : ℤ) :
    List ℤ → ℤ → List (PImage × ℤ × ℤ)
  | [], _ => []
  | y :: ys, ypix =>
      paste_row fetch tsx y ypix (pyRange txstart txend) 0
        ++ paste_rows fetch tsx tsy txstart txend ys (ypix + tsy)

/-- `TileHandler.fetch_image`: creates the canvas of the requested size
(filled with `(0, 250, 0)`) and pastes every fetched tile; `fetch` stands for
`self.fetch_tile` and `tsx`, `tsy` for `self.tile_size_x`, `self.tile_size_y`. -/
def fetch_image (fetch : ℤ → ℤ → PImage)
    (txstart txend tystart tyend size_x size_y tsx tsy : ℤ) : MosaicModel :=
  { width := size_x, height := size_y, background := (0, 250, 0),
    pastes := paste_rows fetch tsx tsy txstart txend (pyRange tystart tyend) 0 }

/-- An HTTP response of the external session, as observed by `fetch_tile`. -/
structure HttpResponse where
  status_code : ℤ
  content : List ℕ
deriving DecidableEq

/-- The on-disk tile cache: file name to stored bytes. -/
def Cache := List (String × List ℕ)

/-- Result of one `fetch_tile` call: the returned image, the cache afterwards,
and the number of network requests issued (0 or 1). -/
structure FetchOutcome where
  image : PImage
  cache : List (String × List ℕ)
  net_requests : ℕ
deriving DecidableEq

/-- `WmtsHandler.fetch_tile` (and, with the same cache/placeholder structure,
`TmsHandler.fetch_tile`): try the cache file first; on a miss issue one
network request, store the bytes on success (HTTP 200) before returning the
decoded image, and on a non-success response return a solid
`(250, 0, 0)`-filled tile of the configured size instead of raising.  `name`
is the deterministic cache file name built from layer, zoom, `x`, `y` and the
format extension; `resp` is what the network would answer.  (The test-mode
branch and the one-time legacy cache renaming shim are not modelled.) -/
def fetch_tile (tsx tsy : ℤ) (name : String) (cache : List (String × List ℕ))
    (resp : HttpResponse) : FetchOutcome :=
  match cache.lookup name with
  | some data => { image := PImage.decoded data, cache := cache, net_requests := 0 }
  | none =>
      if resp.status_code = 200 then
        { image := PImage.decoded resp.content,
          cache := (name, resp.content) :: cache, net_requests := 1 }
      else
        { image := PImage.new tsx tsy (250, 0, 0), cache := cache, net_requests := 1 }

/-- One token of a parsed URL template: literal text, or a `{label}` /
`{label:arg}` placeholder as matched by the template-parsing loop of
`TmsHandler.__init__` (the regex engine itself is an external collaborator;
templates are embedded pre-tokenized). -/
inductive UrlPart where
  | lit (s : String)
  | var (label : String) (arg : Option String)
deriving DecidableEq

/-- One step of the template-parsing loop: a `{switch:v1,v2,...}` token
replaces `self.switch` by the comma-separated value list, every other token
leaves it unchanged.  (A bare `{switch}` with no values would raise in
Python; `arg.getD ""` stands in for that unreachable case.) -/
def tms_switch_step (sw : List String) (p : UrlPart) : List String :=
  match p with
  | UrlPart.lit _ => sw
  | UrlPart.var label arg =>
      if label = "switch" then (arg.getD "").splitOn "," else sw

/-- `self.switch` after `TmsHandler.__init__` parsed the template: it starts
as `['']` and each `switch` token overrides it. -/
def tms_init_switch (parts : List UrlPart) : List String :=
  parts.foldl tms_switch_step [""]

/-- Whether the template contains a `switch` token. -/
def has_switch (parts : List UrlPart) : Bool :=
  parts.any (fun p =>
    match p with
    | UrlPart.var label _ => label = "switch"
    | _ => false)

/-- `self.switch_n` after `k` fetches: starts at 0, and each fetch ends with
`self.switch_n = (self.switch_n + 1) % len(self.switch)`. -/
def switch_state (sw : List String) : ℕ → ℕ
  | 0 => 0
  | k + 1 => (switch_state sw k + 1) % sw.length

/-- The `switch` value substituted by the `k`-th fetch (0-based):
`self.switch[self.switch_n]`. -/
def switch_val (sw : List String) (k : ℕ) : String :=
  sw.getD (switch_state sw k) ""

/-- The substitution dictionary built by `TmsHandler.fetch_tile` for the URL
template (`self.url % {...}`), with every value as the interpolated string.
Python computes `2**(self.zoom-1)` in floating point when `zoom = 0`; the
embedding is faithful for `zoom ≥ 1`, which the theorem assumes. -/
def tms_url_vars (zoom : ℕ) (tile_x tile_y : ℤ) (apikey switch_v : String) :
    List (String × String) :=
  [("x", toString tile_x),
   ("y", toString tile_y),
   ("!y", toString ((2 : ℤ) ^ (zoom - 1) - 1 - tile_y)),
   ("-y", toString ((2 : ℤ) ^ zoom - 1 - tile_y)),
   ("zoom", toString zoom),
   ("z", toString zoom),
   ("apikey", apikey),
   ("switch", switch_v)]

/-- `self.url % vars`: concatenate literals and substituted placeholders left
to right; a label missing from the dictionary is Python's `KeyError`,
modelled as `none`. -/
def build_url (vars : List (String × String)) (parts : List UrlPart) : Option String :=
  parts.foldl (fun acc p =>
    match acc, p with
    | none, _ => none
    | some s, UrlPart.lit t => some (s ++ t)
    | some s, UrlPart.var label _ =>
        match vars.lookup label with
        | some v => some (s ++ v)
        | none => none) (some "")

/-- A node of the WMS layer tree as parsed by `WmsHandler.load_layer`:
optional `Name`, mandatory `Title`, optional `Abstract`, optional
`MinScaleDenominator`/`MaxScaleDenominator`, the node's own CRS list, and the
child layers. -/
structure LayerNode where
  name : Option String
  title : String
  abstract : Option String
  min_sd : Option ℚ
  max_sd : Option ℚ
  crs : List String
  sub : List LayerNode

/-- The resolved layer entry built by `WmsHandler.find_layer_r`
(`min_scale_denominator`, `max_scale_denominator`, `crs`, and the
`name`/`title`/`abstract` keys that are only set at the matched layer). -/
structure LayerEntry where
  max_sd : ℚ
  min_sd : ℚ
  crs : List String
  name : Option String := none
  title : Option String := none
  abstract : Option String := none

/-- `WmsHandler.find_layer_r`: depth-first search merging inherited
attributes.  The scalar fields follow Python's copy semantics
(`layer_entry.copy()` with per-layer overrides).  The `crs` list does not:
`current_entry = layer_entry.copy()` is a shallow copy, so
`current_entry['crs'] += layer['crs']` extends the one list object shared by
every entry of the recursion; it is therefore threaded here as the explicit
accumulator `crs`, and the returned entry holds its value at the moment the
layer was found. -/
def find_layer_r (entry : LayerEntry) (name : String) :
    List LayerNode → List String → Option LayerEntry × List String
  | [], crs => (none, crs)
  | l :: rest, crs =>
      let crs1 := crs ++ l.crs
      let current : LayerEntry :=
        { entry with
          max_sd := l.max_sd.getD entry.max_sd,
          min_sd := l.min_sd.getD entry.min_sd,
          crs := crs1 }
      if l.name = some name then
        (some { current with
                  name := l.name,
                  title := some l.title,
                  abstract := if l.abstract.isSome then l.abstract else current.abstract },
         crs1)
      else
        match find_layer_r current name l.sub crs1 with
        | (some e, crs2) => (some e, crs2)
        | (none, crs2) => find_layer_r entry name rest crs2
termination_by layers _ => sizeOf layers
decreasing_by
  all_goals cases l with
  | mk a b c d e f g => simp; try omega

/-- `WmsHandler.find_layer`: the root entry carries the defaults
`max_scale_denominator = 1e12`, `min_scale_denominator = 0`, `crs = []`. -/
def find_layer (name : String) (layers : List LayerNode) : Option LayerEntry :=
  (find_layer_r { max_sd := 10 ^ 12, min_sd := 0, crs := [] } name layers []).1

/-- The root-to-target path of the first layer named `name` in the same
depth-first pre-order that `find_layer_r` searches (spec-side definition:
the chain of ancestors the resolved attributes are inherited along). -/
def find_path (name : String) : List LayerNode → Option (List LayerNode)
  | [] => none
  | l :: rest =>
      if l.name = some name then some [l]
      else
        match find_path name l.sub with
        | some p => some (l :: p)
        | none => find_path name rest
termination_by layers => sizeOf layers
decreasing_by
  all_goals cases l with
  | mk a b c d e f g => simp; try omega

/-- The module-level names bound in `paintfile.py` (imports, constants, the
file-name pattern, request templates, functions, classes, and the script-body
variables).  The name `orig_image`, which `georeference_image` passes to
`os.unlink`, is bound nowhere in the file — its only occurrence is that
`unlink` call (the function's parameter is `orig_name`). -/
def paintfile_module_globals : List String :=
  ["io", "json", "math", "os", "re", "subprocess", "sys", "time", "ET",
   "Image", "Transformer", "requests", "lidar_resolution_m", "re_ign_file",
   "colors", "wmts_GetTile_fmt", "wmts_GetCapabilities_fmt",
   "wms_GetCapabilities_fmt", "wms_GetMap_fmt", "osm_marker",
   "georeference_image", "TileCoords", "WebMercatorTileCoords",
   "TileHandler", "WmtsHandler", "TmsHandler", "WmsHandler", "LazColorize",
   "cf", "config", "c", "arg", "m", "lambx_km", "lamby_km"]

/-- The cleanup step of `georeference_image` after the external
`gdal_translate` invocation: with `keeptmpfiles` unset it executes
`os.unlink(orig_image)`, resolving the free name `orig_image` against the
enclosing (module) scope; an unbound name raises Python's `NameError`.  A
successful run reports the deleted file name (`none` when nothing is
deleted). -/
def georeference_image_cleanup (keeptmpfiles : Bool) (globalNames : List String) :
    Except String (Option String) :=
  if keeptmpfiles then Except.ok none
  else if globalNames.contains "orig_image" then Except.ok (some "orig_image")
  else Except.error "NameError"

/-- Python `int()` truncation is bounded by its argument when the argument is
nonnegative (there it agrees with the floor). -/
theorem pyInt_cast_le {q : ℚ} (h : 0 ≤ q) : (pyInt q : ℚ) ≤ q := by
  rw [pyInt, if_pos h]
  exact Int.floor_le q

/-- C2: applying `tile_to_geo` and then the affine part of `transform_to_tile`
with the identity reprojection reproduces the tile coordinates exactly (the
embedding is over `ℚ`, so the floating-point tolerance is not needed);
`tile_to_geo` takes no transformer argument, so it never invokes the
reference-system transform primitive. -/
theorem transform_round_trip (tc : WebMercatorTileCoords)
    (hmx : tc.tile_mx ≠ 0) (hmy : tc.tile_my ≠ 0) (tile_x tile_y : ℚ) :
    (transform_to_tile tc idTransform (tile_to_geo tc tile_x tile_y).1
        (tile_to_geo tc tile_x tile_y).2).tx = tile_x ∧
    (transform_to_tile tc idTransform (tile_to_geo tc tile_x tile_y).1
        (tile_to_geo tc tile_x tile_y).2).ty = tile_y := by
  unfold transform_to_tile tile_to_geo idTransform
  constructor
  · field_simp
  · field_simp

/-- Witness for C2 at the concrete coordinate space `tc0` and tile `(3, 5)`. -/
theorem transform_round_trip_witness :
    (transform_to_tile tc0 idTransform (tile_to_geo tc0 3 5).1
        (tile_to_geo tc0 3 5).2).tx = 3 ∧
    (transform_to_tile tc0 idTransform (tile_to_geo tc0 3 5).1
        (tile_to_geo tc0 3 5).2).ty = 5 :=
  transform_round_trip tc0
    (by norm_num [tc0, WebMercatorTileCoords.ofZoomConfig])
    (by norm_num [tc0, WebMercatorTileCoords.ofZoomConfig]) 3 5

/-- C1 (amended): with the identity reprojection, positive tile extents, and
the cell at nonnegative tile coordinates (grid origin northwest of the cell),
the integer tile bounding box of `compute_tile_parameters`, converted back to
geographic coordinates by `tile_to_geo`, contains the 1 km cell box itself
(margin 0): the rounding over-covers and never under-covers. -/
theorem compute_tile_parameters_overcovers (tc : WebMercatorTileCoords)
    (lambx_km lamby_km : ℚ) (hmx : 0 < tc.tile_mx) (hmy : 0 < tc.tile_my)
    (hx : tc.x0 ≤ lambx_km * 1000) (hy : lamby_km * 1000 ≤ tc.y0) :
    (compute_tile_parameters tc idTransform lambx_km lamby_km).tx1_orig ≤ lambx_km * 1000 ∧
    (lambx_km + 1) * 1000 ≤ (compute_tile_parameters tc idTransform lambx_km lamby_km).tx2_orig ∧
    (compute_tile_parameters tc idTransform lambx_km lamby_km).ty2_orig ≤ (lamby_km - 1) * 1000 ∧
    lamby_km * 1000 ≤ (compute_tile_parameters tc idTransform lambx_km lamby_km).ty1_orig := by
  have hmx0 : tc.tile_mx ≠ 0 := ne_of_gt hmx
  have hmy0 : tc.tile_my ≠ 0 := ne_of_gt hmy
  have hab : (lambx_km * 1000 - tc.x0) / tc.tile_mx
      ≤ ((lambx_km + 1) * 1000 - tc.x0) / tc.tile_mx :=
    (div_le_div_iff_of_pos_right hmx).mpr (by linarith)
  have hcd : (tc.y0 - lamby_km * 1000) / tc.tile_my
      ≤ (tc.y0 - (lamby_km - 1) * 1000) / tc.tile_my :=
    (div_le_div_iff_of_pos_right hmy).mpr (by linarith)
  have h0a : 0 ≤ (lambx_km * 1000 - tc.x0) / tc.tile_mx := div_nonneg (by linarith) hmx.le
  have h0c : 0 ≤ (tc.y0 - lamby_km * 1000) / tc.tile_my := div_nonneg (by linarith) hmy.le
  have hfa := mul_le_mul_of_nonneg_right (pyInt_cast_le h0a) hmx.le
  have hfc := mul_le_mul_of_nonneg_right (pyInt_cast_le h0c) hmy.le
  have hcb := mul_le_mul_of_nonneg_right
    (Int.le_ceil (((lambx_km + 1) * 1000 - tc.x0) / tc.tile_mx)) hmx.le
  have hcd2 := mul_le_mul_of_nonneg_right
    (Int.le_ceil ((tc.y0 - (lamby_km - 1) * 1000) / tc.tile_my)) hmy.le
  have e1 : (lambx_km * 1000 - tc.x0) / tc.tile_mx * tc.tile_mx
      = lambx_km * 1000 - tc.x0 := div_mul_cancel₀ _ hmx0
  have e2 : ((lambx_km + 1) * 1000 - tc.x0) / tc.tile_mx * tc.tile_mx
      = (lambx_km + 1) * 1000 - tc.x0 := div_mul_cancel₀ _ hmx0
  have e3 : (tc.y0 - lamby_km * 1000) / tc.tile_my * tc.tile_my
      = tc.y0 - lamby_km * 1000 := div_mul_cancel₀ _ hmy0
  have e4 : (tc.y0 - (lamby_km - 1) * 1000) / tc.tile_my * tc.tile_my
      = tc.y0 - (lamby_km - 1) * 1000 := div_mul_cancel₀ _ hmy0
  simp only [compute_tile_parameters, transform_to_tile, tile_to_geo, idTransform,
    min_self, max_self, min_eq_left hab, max_eq_right hab, min_eq_left hcd,
    max_eq_right hcd]
  refine ⟨?_, ?_, ?_, ?_⟩ <;> linarith

/-- Witness for C1 (amended) at `tc0` and the cell `(0, 1)`. -/
theorem compute_tile_parameters_overcovers_witness :
    (compute_tile_parameters tc0 idTransform 0 1).tx1_orig ≤ 0 * 1000 ∧
    (0 + 1) * 1000 ≤ (compute_tile_parameters tc0 idTransform 0 1).tx2_orig ∧
    (compute_tile_parameters tc0 idTransform 0 1).ty2_orig ≤ ((1 : ℚ) - 1) * 1000 ∧
    (1 : ℚ) * 1000 ≤ (compute_tile_parameters tc0 idTransform 0 1).ty1_orig :=
  compute_tile_parameters_overcovers tc0 0 1
    (by norm_num [tc0, WebMercatorTileCoords.ofZoomConfig])
    (by norm_num [tc0, WebMercatorTileCoords.ofZoomConfig])
    (by norm_num [tc0, WebMercatorTileCoords.ofZoomConfig])
    (by norm_num [tc0, WebMercatorTileCoords.ofZoomConfig])

/-- Counterexample for C1 as stated: at `tc0`, cell `(0, 1)` and margin
`m = 70 ≥ 0`, the geographic box of the computed integer tile bounding box
(exactly the cell itself here) does not contain the `cell ± 70` box. -/
theorem compute_tile_parameters_margin_counterexample :
    (0 : ℚ) ≤ 70 ∧
    ¬ ((compute_tile_parameters tc0 idTransform 0 1).tx1_orig ≤ 0 * 1000 - 70 ∧
       (0 + 1) * 1000 + 70 ≤ (compute_tile_parameters tc0 idTransform 0 1).tx2_orig ∧
       (compute_tile_parameters tc0 idTransform 0 1).ty2_orig ≤ ((1 : ℚ) - 1) * 1000 - 70 ∧
       (1 : ℚ) * 1000 + 70 ≤ (compute_tile_parameters tc0 idTransform 0 1).ty1_orig) := by
  constructor
  · norm_num
  · norm_num [compute_tile_parameters, transform_to_tile, tile_to_geo, idTransform,
      tc0, WebMercatorTileCoords.ofZoomConfig, pyInt, min_def, max_def]

/-- C3 (amended): the request geometry is derived from the four corners of the
1 km cell itself: `compute_tile_parameters` takes no margin argument, and it
coincides with the spec-worded corner computation at margin 0. -/
theorem compute_tile_parameters_is_margin_zero (tc : WebMercatorTileCoords)
    (f : ℚ → ℚ → ℚ × ℚ) (lambx_km lamby_km : ℚ) :
    compute_tile_parameters tc f lambx_km lamby_km
      = compute_tile_parameters_spec_margin tc f lambx_km lamby_km 0 := by
  simp only [compute_tile_parameters, compute_tile_parameters_spec_margin,
    sub_zero, add_zero]

/-- Counterexample for C3 as stated: at `tc0` and cell `(1, 2)` the computed
geometry is exactly the 1000×1000 cell box, so with margin 70 it does not
cover the (1000+140)×(1000+140) meter square around the cell. -/
theorem compute_tile_parameters_no_margin_counterexample :
    ¬ ((compute_tile_parameters tc0 idTransform 1 2).tx1_orig ≤ 1 * 1000 - 70 ∧
       (1 + 1) * 1000 + 70 ≤ (compute_tile_parameters tc0 idTransform 1 2).tx2_orig ∧
       (compute_tile_parameters tc0 idTransform 1 2).ty2_orig ≤ ((2 : ℚ) - 1) * 1000 - 70 ∧
       (2 : ℚ) * 1000 + 70 ≤ (compute_tile_parameters tc0 idTransform 1 2).ty1_orig) := by
  norm_num [compute_tile_parameters, transform_to_tile, tile_to_geo, idTransform,
    tc0, WebMercatorTileCoords.ofZoomConfig, pyInt, min_def, max_def]

/-- Closed form of the inner paste loop: the `x`-th tile of the row lands at
horizontal pixel offset `xpix + (x - a) * tsx`. -/
theorem paste_row_closed (fetch : ℤ → ℤ → PImage) (tsx y ypix : ℤ) :
    ∀ (n : ℕ) (a xpix : ℤ),
      paste_row fetch tsx y ypix (myRange a n) xpix
        = (myRange a n).map (fun x => (fetch x y, xpix + (x - a) * tsx, ypix)) := by
  intro n
  induction n with
  | zero => intro a xpix; rfl
  | succ n ih =>
      intro a xpix
      rw [myRange, paste_row, List.map_cons, ih (a + 1) (xpix + tsx)]
      congr 1
      · simp
      · refine List.map_congr_left ?_
        intro x hx
        simp only [Prod.mk.injEq, and_true, true_and]
        ring

/-- Closed form of the outer paste loop: row `y` lands at vertical pixel
offset `ypix + (y - b) * tsy`. -/
theorem paste_rows_closed (fetch : ℤ → ℤ → PImage) (tsx tsy txstart txend : ℤ) :
    ∀ (n : ℕ) (b ypix : ℤ),
      paste_rows fetch tsx tsy txstart txend (myRange b n) ypix
        = (myRange b n).flatMap (fun y =>
            (pyRange txstart txend).map (fun x =>
              (fetch x y, (x - txstart) * tsx, ypix + (y - b) * tsy))) := by
  intro n
  induction n with
  | zero => intro b ypix; rfl
  | succ n ih =>
      intro b ypix
      rw [myRange, paste_rows, List.flatMap_cons, ih (b + 1) (ypix + tsy)]
      congr 1
      · rw [pyRange, paste_row_closed]
        refine List.map_congr_left ?_
        intro x hx
        simp only [Prod.mk.injEq, and_true, true_and]
        constructor <;> ring
      · have hf : (fun y => (pyRange txstart txend).map (fun x =>
              (fetch x y, (x - txstart) * tsx, ypix + tsy + (y - (b + 1)) * tsy)))
            = fun y => (pyRange txstart txend).map (fun x =>
              (fetch x y, (x - txstart) * tsx, ypix + (y - b) * tsy)) := by
          funext y
          refine List.map_congr_left ?_
          intro x hx
          simp only [Prod.mk.injEq, and_true, true_and]
          ring
        rw [hf]

/-- C4: the mosaic canvas measures `(txend - txstart) * tile_size_x` by
`(tyend - tystart) * tile_size_y` pixels, and `fetch_image` pastes the tile
`(x, y)` at pixel offset `((x - txstart) * tile_size_x,
(y - tystart) * tile_size_y)`, enumerating the tile grid in row-major order. -/
theorem mosaic_layout (tc : WebMercatorTileCoords) (f : ℚ → ℚ → ℚ × ℚ)
    (lambx_km lamby_km : ℚ) (fetch : ℤ → ℤ → PImage) (tsx tsy : ℤ) :
    (compute_tile_parameters tc f lambx_km lamby_km).size_x
        = ((compute_tile_parameters tc f lambx_km lamby_km).txend
            - (compute_tile_parameters tc f lambx_km lamby_km).txstart) * tc.tile_size_x ∧
    (compute_tile_parameters tc f lambx_km lamby_km).size_y
        = ((compute_tile_parameters tc f lambx_km lamby_km).tyend
            - (compute_tile_parameters tc f lambx_km lamby_km).tystart) * tc.tile_size_y ∧
    ∀ (txstart txend tystart tyend size_x size_y : ℤ),
      (fetch_image fetch txstart txend tystart tyend size_x size_y tsx tsy).pastes
        = (pyRange tystart tyend).flatMap (fun y =>
            (pyRange txstart txend).map (fun x =>
              (fetch x y, (x - txstart) * tsx, (y - tystart) * tsy))) := by
  refine ⟨rfl, rfl, ?_⟩
  intro txstart txend tystart tyend size_x size_y
  show paste_rows fetch tsx tsy txstart txend (pyRange tystart tyend) 0 = _
  rw [pyRange, paste_rows_closed]
  simp

/-- C5: on a cache miss with a non-success response, `fetch_tile` returns a
solid `(250, 0, 0)` placeholder tile of the configured tile size instead of
raising (the embedding is total), and the assembled mosaic keeps the
requested pixel dimensions whatever the fetched tiles are. -/
theorem fetch_tile_placeholder (tsx tsy : ℤ) (name : String)
    (cache : List (String × List ℕ)) (resp : HttpResponse)
    (hmiss : cache.lookup name = none) (hfail : resp.status_code ≠ 200) :
    (fetch_tile tsx tsy name cache resp).image = PImage.new tsx tsy (250, 0, 0) ∧
    (fetch_tile tsx tsy name cache resp).cache = cache ∧
    ∀ (fetch : ℤ → ℤ → PImage) (a b c d sx sy : ℤ),
      (fetch_image fetch a b c d sx sy tsx tsy).width = sx ∧
      (fetch_image fetch a b c d sx sy tsx tsy).height = sy := by
  refine ⟨?_, ?_, ?_⟩
  · simp [fetch_tile, hmiss, hfail]
  · simp [fetch_tile, hmiss, hfail]
  · intro fetch a b c d sx sy
    exact ⟨rfl, rfl⟩

/-- Witness for C5: empty cache, HTTP 404, 256×256 tiles. -/
theorem fetch_tile_placeholder_witness :
    (fetch_tile 256 256 "t" [] { status_code := 404, content := [] }).image
        = PImage.new 256 256 (250, 0, 0) ∧
    (fetch_tile 256 256 "t" [] { status_code := 404, content := [] }).cache = [] ∧
    ∀ (fetch : ℤ → ℤ → PImage) (a b c d sx sy : ℤ),
      (fetch_image fetch a b c d sx sy 256 256).width = sx ∧
      (fetch_image fetch a b c d sx sy 256 256).height = sy :=
  fetch_tile_placeholder 256 256 "t" [] { status_code := 404, content := [] }
    rfl (by decide)

/-- C6 (amended): the cache is consulted before any network fetch (a hit
issues no request and returns the cached bytes), and on a miss answered with
HTTP 200 the fetched bytes are stored before being returned, so the second
fetch of the same tile is served from cache with byte-identical content and
the two fetches together issue exactly one network request. -/
theorem fetch_tile_write_through (tsx tsy : ℤ) (name : String)
    (cache : List (String × List ℕ)) (resp resp2 : HttpResponse)
    (hmiss : cache.lookup name = none) (hok : resp.status_code = 200) :
    ((fetch_tile tsx tsy name cache resp).cache).lookup name = some resp.content ∧
    (fetch_tile tsx tsy name cache resp).net_requests = 1 ∧
    (fetch_tile tsx tsy name ((fetch_tile tsx tsy name cache resp).cache) resp2).net_requests
        = 0 ∧
    (fetch_tile tsx tsy name ((fetch_tile tsx tsy name cache resp).cache) resp2).image
        = PImage.decoded resp.content ∧
    ∀ (c : List (String × List ℕ)) (d : List ℕ), c.lookup name = some d →
      (fetch_tile tsx tsy name c resp2).net_requests = 0 ∧
      (fetch_tile tsx tsy name c resp2).image = PImage.decoded d := by
  have h1 : fetch_tile tsx tsy name cache resp
      = { image := PImage.decoded resp.content,
          cache := (name, resp.content) :: cache, net_requests := 1 } := by
    simp [fetch_tile, hmiss, hok]
  have h2 : ((name, resp.content) :: cache).lookup name = some resp.content := by
    simp [List.lookup]
  refine ⟨?_, ?_, ?_, ?_, ?_⟩
  · rw [h1]
    exact h2
  · rw [h1]
  · rw [h1]
    simp [fetch_tile, h2]
  · rw [h1]
    simp [fetch_tile, h2]
  · intro c d hc
    constructor <;> simp [fetch_tile, hc]

/-- Witness for C6 (amended): empty cache, one stored byte. -/
theorem fetch_tile_write_through_witness :
    ((fetch_tile 256 256 "t" [] { status_code := 200, content := [7] }).cache).lookup "t"
        = some [7] ∧
    (fetch_tile 256 256 "t" [] { status_code := 200, content := [7] }).net_requests = 1 ∧
    (fetch_tile 256 256 "t"
        ((fetch_tile 256 256 "t" [] { status_code := 200, content := [7] }).cache)
        { status_code := 500, content := [] }).net_requests = 0 ∧
    (fetch_tile 256 256 "t"
        ((fetch_tile 256 256 "t" [] { status_code := 200, content := [7] }).cache)
        { status_code := 500, content := [] }).image = PImage.decoded [7] ∧
    ∀ (c : List (String × List ℕ)) (d : List ℕ), c.lookup "t" = some d →
      (fetch_tile 256 256 "t" c { status_code := 500, content := [] }).net_requests = 0 ∧
      (fetch_tile 256 256 "t" c { status_code := 500, content := [] }).image
        = PImage.decoded d :=
  fetch_tile_write_through 256 256 "t" [] { status_code := 200, content := [7] }
    { status_code := 500, content := [] } rfl rfl

/-- Counterexample for C6 as stated: when the miss is answered with a
non-success response nothing is cached, so fetching the same tile address
twice issues two network requests, not at most one. -/
theorem fetch_tile_failed_twice_counterexample :
    ¬ ((fetch_tile 256 256 "t" [] { status_code := 404, content := [] }).net_requests
        + (fetch_tile 256 256 "t"
            ((fetch_tile 256 256 "t" [] { status_code := 404, content := [] }).cache)
            { status_code := 404, content := [] }).net_requests ≤ 1) := by
  decide

/-- A template without a `switch` token leaves `self.switch` unchanged under
the parsing fold. -/
theorem foldl_switch_const :
    ∀ (parts : List UrlPart) (sw : List String),
      has_switch parts = false → parts.foldl tms_switch_step sw = sw := by
  intro parts
  induction parts with
  | nil => intro sw h; rfl
  | cons p rest ih =>
      intro sw h
      rw [has_switch, List.any_cons, Bool.or_eq_false_iff] at h
      obtain ⟨h1, h2⟩ := h
      rw [List.foldl_cons]
      have hstep : tms_switch_step sw p = sw := by
        rcases p with s | ⟨label, arg⟩
        · rfl
        · simp only [decide_eq_false_iff_not] at h1
          simp only [tms_switch_step, if_neg h1]
      rw [hstep]
      exact ih sw h2

/-- The rotation index after `k` fetches is `k` modulo the length of the
switch list. -/
theorem switch_state_mod (sw : List String) (hsw : 0 < sw.length) (k : ℕ) :
    switch_state sw k = k % sw.length := by
  induction k with
  | zero => rw [switch_state, Nat.zero_mod]
  | succ k ih => rw [switch_state, ih, Nat.mod_add_mod]

/-- C8: a template without a `switch` token keeps the rotation list at `['']`
and every fetch substitutes the empty string; a `switch` token with values
`v1,v2,...` installs that list, and the `k`-th fetch substitutes entry
`k mod len` — the values cycle in fetch order. -/
theorem tms_switch_rotation :
    (∀ (parts : List UrlPart) (k : ℕ), has_switch parts = false →
        tms_init_switch parts = [""]
          ∧ switch_val (tms_init_switch parts) k = "") ∧
    (∀ (sw : List String) (k : ℕ), 0 < sw.length →
        switch_val sw k = sw.getD (k % sw.length) "") ∧
    (∀ s : String,
        tms_init_switch [UrlPart.var "switch" (some s)] = s.splitOn ",") := by
  have hval : ∀ (sw : List String) (k : ℕ), 0 < sw.length →
      switch_val sw k = sw.getD (k % sw.length) "" := by
    intro sw k hsw
    rw [switch_val, switch_state_mod sw hsw]
  refine ⟨?_, hval, ?_⟩
  · intro parts k h
    have h0 : tms_init_switch parts = [""] := foldl_switch_const parts [""] h
    refine ⟨h0, ?_⟩
    rw [h0, hval [""] k (by simp)]
    simp
  · intro s
    simp [tms_init_switch, tms_switch_step]

/-- Witness for C8: a switch-free template always substitutes the empty
string (shown at fetch 5), and the list `[a, b, c]` substitutes entry
`4 mod 3 = 1` at fetch 4; `{switch:a,b,c}` installs `[a, b, c]`. -/
theorem tms_switch_rotation_witness :
    (tms_init_switch [UrlPart.lit "https://tile.server/", UrlPart.var "z" none] = [""]
      ∧ switch_val
          (tms_init_switch [UrlPart.lit "https://tile.server/", UrlPart.var "z" none]) 5
          = "") ∧
    switch_val ["a", "b", "c"] 4 = ["a", "b", "c"].getD (4 % 3) "" ∧
    tms_init_switch [UrlPart.var "switch" (some "a,b,c")] = "a,b,c".splitOn "," :=
  ⟨tms_switch_rotation.1 _ 5 rfl,
   tms_switch_rotation.2.1 ["a", "b", "c"] 4 (by decide),
   tms_switch_rotation.2.2 "a,b,c"⟩

/-- C10: in the URL-template substitution dictionary, `x` and `y` map to the
integer tile coordinates, `z` and `zoom` to the zoom level, `!y` to
`2^(zoom-1) - 1 - tile_y` and `-y` to `2^zoom - 1 - tile_y`; a
`.../{z}/{x}/{y}.png` template therefore builds the corresponding URL. -/
theorem tms_url_substitution (zoom : ℕ) (tile_x tile_y : ℤ)
    (apikey switch_v : String) (hz : 1 ≤ zoom) :
    (tms_url_vars zoom tile_x tile_y apikey switch_v).lookup "x"
        = some (toString tile_x) ∧
    (tms_url_vars zoom tile_x tile_y apikey switch_v).lookup "y"
        = some (toString tile_y) ∧
    (tms_url_vars zoom tile_x tile_y apikey switch_v).lookup "!y"
        = some (toString ((2 : ℤ) ^ (zoom - 1) - 1 - tile_y)) ∧
    (tms_url_vars zoom tile_x tile_y apikey switch_v).lookup "-y"
        = some (toString ((2 : ℤ) ^ zoom - 1 - tile_y)) ∧
    (tms_url_vars zoom tile_x tile_y apikey switch_v).lookup "zoom"
        = some (toString zoom) ∧
    (tms_url_vars zoom tile_x tile_y apikey switch_v).lookup "z"
        = some (toString zoom) ∧
    build_url (tms_url_vars zoom tile_x tile_y apikey switch_v)
        [UrlPart.lit "https://server/", UrlPart.var "z" none, UrlPart.lit "/",
         UrlPart.var "x" none, UrlPart.lit "/", UrlPart.var "y" none,
         UrlPart.lit ".png"]
      = some ("https://server/" ++ toString zoom ++ "/" ++ toString tile_x
          ++ "/" ++ toString tile_y ++ ".png") := by
  refine ⟨rfl, rfl, rfl, rfl, rfl, rfl, ?_⟩
  simp only [build_url, tms_url_vars, List.foldl_cons, List.foldl_nil, List.lookup]
  simp [String.empty_append, String.append_assoc]

/-- Witness for C10 at zoom 2, tile `(3, 1)`: `!y = 2^1 - 1 - 1 = 0` and
`-y = 2^2 - 1 - 1 = 2`. -/
theorem tms_url_substitution_witness :
    (tms_url_vars 2 3 1 "k" "s").lookup "x" = some (toString (3 : ℤ)) ∧
    (tms_url_vars 2 3 1 "k" "s").lookup "y" = some (toString (1 : ℤ)) ∧
    (tms_url_vars 2 3 1 "k" "s").lookup "!y"
        = some (toString ((2 : ℤ) ^ (2 - 1) - 1 - 1)) ∧
    (tms_url_vars 2 3 1 "k" "s").lookup "-y"
        = some (toString ((2 : ℤ) ^ 2 - 1 - 1)) ∧
    (tms_url_vars 2 3 1 "k" "s").lookup "zoom" = some (toString (2 : ℕ)) ∧
    (tms_url_vars 2 3 1 "k" "s").lookup "z" = some (toString (2 : ℕ)) ∧
    build_url (tms_url_vars 2 3 1 "k" "s")
        [UrlPart.lit "https://server/", UrlPart.var "z" none, UrlPart.lit "/",
         UrlPart.var "x" none, UrlPart.lit "/", UrlPart.var "y" none,
         UrlPart.lit ".png"]
      = some ("https://server/" ++ toString (2 : ℕ) ++ "/" ++ toString (3 : ℤ)
          ++ "/" ++ toString (1 : ℤ) ++ ".png") :=
  tms_url_substitution 2 3 1 "k" "s" (by decide)

/-- `find_layer_r` resolves exactly the layers reachable by `find_path`, and
the resolved scale denominators are one `getD`-fold of the explicit
attributes along the root-to-target path over the inherited start values. -/
theorem find_layer_r_path (name : String) :
    ∀ (n : ℕ) (layers : List LayerNode), sizeOf layers ≤ n →
      ∀ (entry : LayerEntry) (crs : List String),
      ((find_layer_r entry name layers crs).1).map (fun e => (e.min_sd, e.max_sd, e.name))
        = (find_path name layers).map (fun p =>
            (p.foldl (fun a l => l.min_sd.getD a) entry.min_sd,
             p.foldl (fun a l => l.max_sd.getD a) entry.max_sd,
             some name)) := by
  intro n
  induction n with
  | zero =>
      intro layers hsz
      cases layers <;> simp at hsz
  | succ n ih =>
      intro layers hsz entry crs
      match layers with
      | [] => simp [find_layer_r, find_path]
      | l :: rest =>
        have hsub : sizeOf l.sub ≤ n := by
          cases l with | mk a b c d e f g => simp at hsz ⊢; omega
        have hrest : sizeOf rest ≤ n := by
          simp at hsz
          omega
        simp only [find_layer_r, find_path]
        by_cases hname : l.name = some name
        · rw [if_pos hname, if_pos hname]
          simp [hname]
        · rw [if_neg hname, if_neg hname]
          rcases hfr : find_layer_r { entry with
              max_sd := l.max_sd.getD entry.max_sd,
              min_sd := l.min_sd.getD entry.min_sd,
              crs := crs ++ l.crs } name l.sub (crs ++ l.crs) with ⟨oe, crs2⟩
          have h1 := ih l.sub hsub { entry with
              max_sd := l.max_sd.getD entry.max_sd,
              min_sd := l.min_sd.getD entry.min_sd,
              crs := crs ++ l.crs } (crs ++ l.crs)
          rw [hfr] at h1
          cases hp : find_path name l.sub with
          | some p =>
              rw [hp] at h1
              rcases oe with _ | e
              · simp at h1
              · simp at h1 ⊢
                exact h1
          | none =>
              rw [hp] at h1
              rcases oe with _ | e
              · simpa using ih rest hrest entry crs2
              · simp at h1

/-- C7: `find_layer` succeeds exactly on layers present in the tree, and the
resolved `min`/`max` scale denominators are the fold of the explicit
attributes along the root-to-target ancestor path starting from the root
defaults `0` and `1e12`: a layer without explicit attributes resolves to its
nearest ancestor's value (or the default when no ancestor sets one), an
explicit attribute overrides the inherited value, and each path layer is
merged exactly once. -/
theorem find_layer_inheritance (name : String) (layers : List LayerNode) :
    (find_layer name layers).map (fun e => (e.min_sd, e.max_sd, e.name))
      = (find_path name layers).map (fun p =>
          (p.foldl (fun a l => l.min_sd.getD a) 0,
           p.foldl (fun a l => l.max_sd.getD a) (10 ^ 12),
           some name)) :=
  find_layer_r_path name (sizeOf layers) layers le_rfl _ []

/-- C9 (code bug): with the keep-temporary-files option unset,
`georeference_image` raises `NameError` on the unbound name `orig_image`
instead of deleting the intermediate raster (which is bound to `orig_name`);
with the option set the `unlink` is skipped and the call returns normally. -/
theorem georeference_image_cleanup_name_error :
    georeference_image_cleanup false paintfile_module_globals
        = Except.error "NameError" ∧
    georeference_image_cleanup true paintfile_module_globals = Except.ok none := by
  constructor <;> rfl

end Paintfile
